import Mathlib

/-!
Shallow embedding of the recurrence engine and reminder delivery subsystem of
the task-management backend (`src/backend/src`): the pure recurrence calculator
(`services/recurrence_service.py`), the series lifecycle manager, the reminder
store accessor (`services/reminder_service.py`), and the SSE connection
registry plus dispatch loop (`config/scheduler.py`).

Python `datetime.date` / `datetime.datetime` values are modelled as plain
records of naturals; `timedelta` day addition and `dateutil.relativedelta`
month/year addition are embedded with explicit Gregorian-calendar arithmetic.
Database tables are modelled as lists of rows keyed by a natural-number id,
and fallible service methods return `Except`/`Option` values.  Blocking
forever on an `asyncio.Lock` that is already held is modelled by `none`.
-/

namespace Backend

/-! ### Calendar arithmetic (embedding of `datetime` + `dateutil.relativedelta`) -/

/-- Gregorian leap-year test (`calendar.isleap` semantics used by `datetime`). -/
def isLeapYear (y : Nat) : Bool :=
  (y % 4 == 0 && y % 100 != 0) || y % 400 == 0

/-- Number of days in month `m` (1..12) of year `y`. -/
def daysInMonth (y m : Nat) : Nat :=
  if m == 2 then (if isLeapYear y then 29 else 28)
  else if m == 4 || m == 6 || m == 9 || m == 11 then 30
  else 31

/-- A calendar date, as produced by Python `datetime.date`. -/
structure Date where
  year : Nat
  month : Nat
  day : Nat
deriving DecidableEq, Repr

/-- Lexicographic `<=` on dates (Python `date.__le__`). -/
def Date.le (a b : Date) : Bool :=
  decide (a.year < b.year) ||
    (decide (a.year = b.year) &&
      (decide (a.month < b.month) ||
        (decide (a.month = b.month) && decide (a.day ≤ b.day))))

/-- Lexicographic `<` on dates (Python `date.__lt__`). -/
def Date.lt (a b : Date) : Bool :=
  decide (a.year < b.year) ||
    (decide (a.year = b.year) &&
      (decide (a.month < b.month) ||
        (decide (a.month = b.month) && decide (a.day < b.day))))

/-- A timestamp, as produced by Python `datetime.datetime` (sub-second parts
dropped: nothing in the embedded code inspects them). -/
structure DateTime where
  year : Nat
  month : Nat
  day : Nat
  hour : Nat
  minute : Nat
  second : Nat
deriving DecidableEq, Repr

/-- Python `datetime.date()`: the calendar-date component. -/
def DateTime.date (t : DateTime) : Date :=
  ⟨t.year, t.month, t.day⟩

/-- Day count of a civil date from the epoch 0000-03-01 (standard
days-from-civil conversion; valid for year ≥ 1, which covers every
`datetime` value). -/
def daysFromCivil (d : Date) : Nat :=
  let y := if d.month ≤ 2 then d.year - 1 else d.year
  let era := y / 400
  let yoe := y % 400
  let mp := (d.month + 9) % 12
  let doy := (153 * mp + 2) / 5 + d.day - 1
  let doe := yoe * 365 + yoe / 4 - yoe / 100 + doy
  era * 146097 + doe

/-- Inverse of `daysFromCivil` (standard civil-from-days conversion). -/
def civilFromDays (z : Nat) : Date :=
  let era := z / 146097
  let doe := z % 146097
  let yoe := (doe - doe / 1460 + doe / 36524 - doe / 146096) / 365
  let y := yoe + era * 400
  let doy := doe - (365 * yoe + yoe / 4 - yoe / 100)
  let mp := (5 * doy + 2) / 153
  let d := doy - (153 * mp + 2) / 5 + 1
  let m := if mp < 10 then mp + 3 else mp - 9
  ⟨if m ≤ 2 then y + 1 else y, m, d⟩

/-- Python `dt + timedelta(days=n)` (time of day unchanged, `n ≥ 0` as all
embedded call sites pass a validated positive interval). -/
def DateTime.addDays (t : DateTime) (n : Nat) : DateTime :=
  let d := civilFromDays (daysFromCivil t.date + n)
  ⟨d.year, d.month, d.day, t.hour, t.minute, t.second⟩

/-- Python `dt + relativedelta(months=k)`: advance the month index by `k`
and clamp the day to the last valid day of the target month. -/
def DateTime.addMonths (t : DateTime) (k : Nat) : DateTime :=
  let m0 := t.year * 12 + (t.month - 1) + k
  let y := m0 / 12
  let m := m0 % 12 + 1
  ⟨y, m, min t.day (daysInMonth y m), t.hour, t.minute, t.second⟩

/-- Python `dt + relativedelta(years=k)`: advance the year by `k` and clamp
the day to the last valid day of the (unchanged) month in the target year. -/
def DateTime.addYears (t : DateTime) (k : Nat) : DateTime :=
  let y := t.year + k
  ⟨y, t.month, min t.day (daysInMonth y t.month), t.hour, t.minute, t.second⟩

/-! ### Recurrence rules (`models/recurrence.py`) -/

/-- `RecurrenceFrequency` enum. -/
inductive RecurrenceFrequency where
  | daily
  | weekly
  | monthly
  | yearly
  | custom
deriving DecidableEq, Repr

/-- `RecurrenceEndType` enum. -/
inductive RecurrenceEndType where
  | never
  | count
  | date
deriving DecidableEq, Repr

/-- A persisted `RecurrenceRule` row.  `interval` and `end_count` are `Nat`
because the shared pydantic schema (`RecurrenceRuleBase`) bounds them to
`1..365` and `1..999` before any row is constructed. -/
structure RecurrenceRule where
  id : Nat
  user_id : Nat
  frequency : RecurrenceFrequency
  interval : Nat
  end_type : RecurrenceEndType
  end_count : Option Nat
  end_date : Option Date
deriving DecidableEq, Repr

/-! ### Recurrence calculator (`services/recurrence_service.py`, static part) -/

/-- `RecurrenceService._add_interval`: advance `base_date` by `interval`
units of `frequency`.  `weekly` is `timedelta(weeks=interval)` = 7·interval
days; `custom` falls back to daily, as does the defensive default branch. -/
def add_interval (base_date : DateTime) (frequency : RecurrenceFrequency)
    (interval : Nat) : DateTime :=
  match frequency with
  | .daily => base_date.addDays interval
  | .weekly => base_date.addDays (7 * interval)
  | .monthly => base_date.addMonths interval
  | .yearly => base_date.addYears interval
  | .custom => base_date.addDays interval

/-- `RecurrenceService._should_continue`: end-condition check against the
current (not yet advanced) anchor. -/
def should_continue (rule : RecurrenceRule) (current_due : DateTime)
    (completed_count : Nat) : Bool :=
  match rule.end_type with
  | .never => true
  | .count =>
    match rule.end_count with
    | none => true
    | some n => decide (completed_count < n)
  | .date =>
    match rule.end_date with
    | none => true
    | some d => Date.le current_due.date d

/-- `RecurrenceService.calculate_next_occurrence`.  A `None` anchor means
"use now" (`datetime.utcnow()`), passed in explicitly as `now`.  The source
returns early with `None` when `_should_continue` fails; here the guard is
written as the positive branch of the same test. -/
def calculate_next_occurrence (rule : RecurrenceRule)
    (current_due : Option DateTime) (completed_count : Nat)
    (now : DateTime) : Option DateTime :=
  let cd := current_due.getD now
  if should_continue rule cd completed_count then
    let next_due := add_interval cd rule.frequency rule.interval
    if rule.end_type = RecurrenceEndType.date then
      match rule.end_date with
      | some ed => if Date.lt ed next_due.date then none else some next_due
      | none => some next_due
    else some next_due
  else none

/-! ### Tasks and the series lifecycle manager
(`models/task.py`, `services/recurrence_service.py` instance methods,
`api/tasks.py::complete_task`) -/

/-- A persisted `Task` row (only the fields the recurrence core reads). -/
structure Task where
  id : Nat
  user_id : Nat
  title : String
  description : Option String
  is_completed : Bool
  priority : Nat
  due : Option DateTime
  recurrence_rule_id : Option Nat
  parent_task_id : Option Nat
deriving DecidableEq, Repr

/-- `RecurrenceService.get_completed_count`: number of completed tasks that
share the `recurrence_rule_id` of the given task and belong to the
user.  `tasks` is the task table. -/
def get_completed_count (tasks : List Task) (user_id : Nat) (task : Task) : Nat :=
  match task.recurrence_rule_id with
  | none => 0
  | some rid =>
    (tasks.filter (fun t =>
      t.recurrence_rule_id == some rid && t.user_id == user_id &&
        t.is_completed)).length

/-- `RecurrenceService.create_next_instance`: the source computes
`completed_count = get_completed_count(task) + 1` (comment: "Include
current"), asks the calculator for the next due using the `due` of the
completed task as anchor, and persists a fresh pending instance when one
exists.
`fresh_id` stands for the database-generated primary key of the new row;
`now` is the wall clock passed through to the calculator (used only when
`task.due` is absent).  Returns the created row (if any) and the updated
task table. -/
def create_next_instance (tasks : List Task) (user_id : Nat) (fresh_id : Nat)
    (now : DateTime) (task : Task) (rule : RecurrenceRule) :
    Option Task × List Task :=
  let completed_count := get_completed_count tasks user_id task + 1
  match calculate_next_occurrence rule task.due completed_count now with
  | none => (none, tasks)
  | some next_due =>
    let next_task : Task :=
      { id := fresh_id
        user_id := user_id
        title := task.title
        description := task.description
        is_completed := false
        priority := task.priority
        due := some next_due
        recurrence_rule_id := task.recurrence_rule_id
        parent_task_id := some task.id }
    (some next_task, tasks ++ [next_task])

/-! ### Reminders (`models/reminder.py`, `services/reminder_service.py`) -/

/-- A Python `datetime` as handed to the reminder service: an absolute value
(seconds since the epoch when read as UTC) plus whether it carries timezone
info.  `replace(tzinfo=timezone.utc)` on a naive stamp keeps the value and
marks it aware. -/
structure Stamp where
  val : Int
  aware : Bool
deriving DecidableEq, Repr

/-- The `if remind_at.tzinfo is None: remind_at = remind_at.replace(tzinfo=utc)`
normalization in `ReminderService.create_reminder`. -/
def Stamp.asUtc (s : Stamp) : Stamp :=
  if s.aware then s else ⟨s.val, true⟩

/-- A persisted `Reminder` row. -/
structure Reminder where
  id : Nat
  task_id : Nat
  remind_at : Stamp
  message : Option String
  sent : Bool
  sent_at : Option Int
deriving DecidableEq, Repr

/-- `ReminderCreate` input schema. -/
structure ReminderCreate where
  task_id : Nat
  remind_at : Stamp
  message : Option String
deriving DecidableEq, Repr

/-- `ReminderService.list_reminders`: reminders joined to tasks of the caller,
optionally filtered to one task.  (The source additionally orders the result
by `remind_at`; no embedded claim observes the order.) -/
def list_reminders (tasks : List Task) (reminders : List Reminder)
    (user_id : Nat) (task_id : Option Nat) : List Reminder :=
  reminders.filter (fun r =>
    tasks.any (fun t => t.id == r.task_id && t.user_id == user_id) &&
      match task_id with
      | none => true
      | some tid => r.task_id == tid)

/-- `ReminderService.MAX_REMINDERS_PER_TASK`. -/
def MAX_REMINDERS_PER_TASK : Nat := 3

/-- `ReminderService.create_reminder`: validate task ownership, reject a
non-future `remind_at` (naive values interpreted as UTC), enforce the
3-per-task limit, then persist.  Returns the outcome together with the
(possibly extended) reminder table; every error leaves the table unchanged.
`now` is `datetime.now(timezone.utc)`; `fresh_id` the generated key. -/
def create_reminder (tasks : List Task) (reminders : List Reminder)
    (user_id : Nat) (now : Int) (fresh_id : Nat) (data : ReminderCreate) :
    Except String Reminder × List Reminder :=
  match tasks.find? (fun t => t.id == data.task_id && t.user_id == user_id) with
  | none => (.error "Task not found", reminders)
  | some _ =>
    let remind_at := data.remind_at.asUtc
    if remind_at.val ≤ now then
      (.error "Reminder time must be in the future", reminders)
    else if MAX_REMINDERS_PER_TASK ≤
        (list_reminders tasks reminders user_id (some data.task_id)).length then
      (.error "Maximum 3 reminders per task allowed", reminders)
    else
      let reminder : Reminder :=
        { id := fresh_id
          task_id := data.task_id
          remind_at := data.remind_at
          message := data.message
          sent := false
          sent_at := none }
      (.ok reminder, reminders ++ [reminder])

/-- `ReminderService.cancel_task_reminders`: validate ownership, then delete
every unsent reminder of the task, returning how many were deleted together
with the remaining reminder table. -/
def cancel_task_reminders (tasks : List Task) (reminders : List Reminder)
    (user_id : Nat) (task_id : Nat) : Except String Nat × List Reminder :=
  match tasks.find? (fun t => t.id == task_id && t.user_id == user_id) with
  | none => (.error "Task not found", reminders)
  | some _ =>
    let unsent := reminders.filter (fun r => r.task_id == task_id && !r.sent)
    (.ok unsent.length,
      reminders.filter (fun r => !(r.task_id == task_id && !r.sent)))

/-- `ReminderService.get_due_reminders_for_all_users`: all reminders with
`remind_at <= now` and `sent == False`, across every user.  (Source orders
by `remind_at`; order is not observed by any embedded claim.) -/
def get_due_reminders_for_all_users (reminders : List Reminder) (now : Int) :
    List Reminder :=
  reminders.filter (fun r => decide (r.remind_at.val ≤ now) && !r.sent)

/-- `ReminderService.mark_as_sent`: `session.get` the row by primary key and,
when present, set `sent = True` and `sent_at = datetime.now(utc)`; silently a
no-op when the reminder no longer exists.  There is no guard on an already
sent reminder: the fields are overwritten unconditionally. -/
def mark_as_sent (reminders : List Reminder) (reminder_id : Nat) (now : Int) :
    List Reminder :=
  reminders.map (fun r =>
    if r.id == reminder_id then { r with sent := true, sent_at := some now }
    else r)

/-! ### Connection registry (`config/scheduler.py::ConnectionManager`)

`asyncio.Lock` is not reentrant: awaiting `acquire` while the same lock is
already held suspends forever.  An operation that would block forever is
modelled as `none`. -/

/-- An SSE notification payload as built by `ConnectionManager.send_reminder`. -/
structure SseMessage where
  reminder_id : Nat
  task_id : Nat
  task_title : String
  message : String
  remind_at : Int
  timestamp : Int
deriving DecidableEq, Repr

/-- The per-user `asyncio.Queue`, by its contents. -/
abbrev Queue := List SseMessage

/-- `ConnectionManager` state: the `_connections` dict plus the `_lock`. -/
structure ConnectionManager where
  connections : List (Nat × Queue)
  lockHeld : Bool
deriving DecidableEq, Repr

/-- `await self._lock.acquire()`: blocks forever (`none`) when the lock is
already held, otherwise takes it. -/
def acquireLock (m : ConnectionManager) : Option ConnectionManager :=
  if m.lockHeld then none else some { m with lockHeld := true }

/-- Leaving an `async with self._lock:` block. -/
def releaseLock (m : ConnectionManager) : ConnectionManager :=
  { m with lockHeld := false }

/-- `ConnectionManager.disconnect`: take the lock, drop the entry of the user if
present, release. -/
def disconnect (user_id : Nat) (m : ConnectionManager) :
    Option ConnectionManager :=
  (acquireLock m).map (fun m1 =>
    releaseLock
      { m1 with connections := m1.connections.filter (fun p => p.fst != user_id) })

/-- `ConnectionManager.connect`: under the lock, `await self.disconnect(...)`
when the user already has a connection — which re-acquires the same
non-reentrant lock — then register a fresh queue and return it. -/
def connect (user_id : Nat) (m : ConnectionManager) :
    Option (Queue × ConnectionManager) := do
  let m1 ← acquireLock m
  let m2 ←
    if m1.connections.any (fun p => p.fst == user_id) then disconnect user_id m1
    else pure m1
  let queue : Queue := []
  some (queue,
    releaseLock { m2 with connections := m2.connections ++ [(user_id, queue)] })

/-- Append a message to the queue registered for `user_id`. -/
def enqueue (user_id : Nat) (msg : SseMessage)
    (conns : List (Nat × Queue)) : List (Nat × Queue) :=
  conns.map (fun p => if p.fst == user_id then (p.fst, p.snd ++ [msg]) else p)

/-- The notification payload built in `ConnectionManager.send_reminder`
(`message` defaults to "Reminder: " + task title). -/
def mkSseMessage (reminder : Reminder) (task : Task) (now : Int) : SseMessage :=
  { reminder_id := reminder.id
    task_id := task.id
    task_title := task.title
    message := reminder.message.getD ("Reminder: " ++ task.title)
    remind_at := reminder.remind_at.val
    timestamp := now }

/-- `ConnectionManager.send_reminder`: under the lock, return `false` when the
user has no registered queue, otherwise enqueue the payload and return
`true`.  (The unbounded `asyncio.Queue.put` cannot fail, so the
try/except-to-`false` branch is unreachable.) -/
def send_reminder (user_id : Nat) (reminder : Reminder) (task : Task)
    (now : Int) (m : ConnectionManager) :
    Option (Bool × ConnectionManager) := do
  let m1 ← acquireLock m
  if m1.connections.any (fun p => p.fst == user_id) then
    let msg := mkSseMessage reminder task now
    some (true, releaseLock { m1 with connections := enqueue user_id msg m1.connections })
  else
    some (false, releaseLock m1)

/-! ### Reminder dispatch loop (`config/scheduler.py::check_due_reminders`),
one cycle. -/

/-- The database state the dispatch loop touches. -/
structure AppDb where
  tasks : List Task
  reminders : List Reminder
deriving DecidableEq, Repr

/-- One iteration of the per-reminder body of the dispatch loop: look up the owning
task (`session.get` by primary key); when it is gone, mark the reminder sent
and continue; otherwise attempt delivery and mark the reminder sent
regardless of the outcome.  The accumulated `List (Nat × Bool)` records each
reminder id and `send_reminder` result of each attempted delivery. -/
def process_one (now : Int)
    (acc : AppDb × ConnectionManager × List (Nat × Bool)) (r : Reminder) :
    Option (AppDb × ConnectionManager × List (Nat × Bool)) :=
  let (db, cm, log) := acc
  match db.tasks.find? (fun t => t.id == r.task_id) with
  | none =>
    some ({ db with reminders := mark_as_sent db.reminders r.id now }, cm, log)
  | some task => do
    let (sent, cm1) ← send_reminder task.user_id r task now cm
    some ({ db with reminders := mark_as_sent db.reminders r.id now }, cm1,
      log ++ [(r.id, sent)])

/-- One full cycle of `check_due_reminders`: query the due, unsent reminders
once, then process each in turn. -/
def check_due_reminders_cycle (now : Int) (db : AppDb)
    (cm : ConnectionManager) :
    Option (AppDb × ConnectionManager × List (Nat × Bool)) :=
  (get_due_reminders_for_all_users db.reminders now).foldlM
    (process_one now) (db, cm, [])

/-! ### Recurrence rule creation schema (`models/recurrence.py`,
`RecurrenceService.create_rule`) -/

/-- Raw `RecurrenceRuleCreate` input before pydantic validation: the numeric
fields are unconstrained integers. -/
structure RecurrenceRuleCreateData where
  frequency : RecurrenceFrequency
  interval : Int
  end_type : RecurrenceEndType
  end_count : Option Int
  end_date : Option Date
deriving DecidableEq, Repr

/-- The pydantic `Field` constraints declared on `RecurrenceRuleBase`:
`interval: ge=1, le=365`; `end_count: ge=1, le=999` (checked only when the
optional value is present). -/
def rule_create_valid (d : RecurrenceRuleCreateData) : Bool :=
  decide (1 ≤ d.interval) && decide (d.interval ≤ 365) &&
    match d.end_count with
    | none => true
    | some n => decide (1 ≤ n) && decide (n ≤ 999)

/-- Schema validation followed by `RecurrenceService.create_rule`: a row is
constructed (copying every field from the input) only when the shared schema
accepts the input. -/
def create_rule (user_id : Nat) (fresh_id : Nat)
    (d : RecurrenceRuleCreateData) : Option RecurrenceRule :=
  if rule_create_valid d then
    some
      { id := fresh_id
        user_id := user_id
        frequency := d.frequency
        interval := d.interval.toNat
        end_type := d.end_type
        end_count := d.end_count.map Int.toNat
        end_date := d.end_date }
  else none

/-! ### Concrete rows used by the closed theorems below -/

/-- A count-bounded daily rule with `end_count = 2`. -/
def c1_rule : RecurrenceRule :=
  ⟨10, 1, .daily, 1, .count, some 2, none⟩

/-- The single, just-completed instance of the series of `c1_rule`, as the
task table sees it when `complete_task` calls `create_next_instance`
(`is_completed` already committed as true). -/
def c1_task : Task :=
  ⟨100, 1, "water plants", none, true, 2, some ⟨2026, 1, 28, 10, 0, 0⟩,
    some 10, none⟩

/-- Wall clock handed to the calculator (unused: `c1_task.due` is present). -/
def c1_now : DateTime := ⟨2026, 1, 1, 0, 0, 0⟩

/-- A date-bounded daily rule ending 2026-01-29. -/
def c2_rule : RecurrenceRule :=
  ⟨11, 1, .daily, 1, .date, none, some ⟨2026, 1, 29⟩⟩

/-- An unsent reminder row. -/
def c5_reminder : Reminder := ⟨1, 100, ⟨50, true⟩, none, false, none⟩

/-- A registry holding one live channel, for user 7, lock free. -/
def c6_manager : ConnectionManager := ⟨[(7, [])], false⟩

/-- A task owned by user 7. -/
def c7_task : Task := ⟨100, 7, "standup", none, false, 1, none, none, none⟩

/-- A due (at time 10), unsent reminder on `c7_task`. -/
def c7_reminder : Reminder := ⟨1, 100, ⟨5, true⟩, none, false, none⟩

/-- A reminder-creation input for task 100 at time 20. -/
def c8_data : ReminderCreate := ⟨100, ⟨20, false⟩, none⟩

/-- Reminder rows on two tasks, mixed sent flags, for the cancel theorem. -/
def c9_reminders : List Reminder :=
  [⟨1, 100, ⟨5, true⟩, none, false, none⟩,
   ⟨2, 100, ⟨6, true⟩, none, true, some 6⟩,
   ⟨3, 200, ⟨7, true⟩, none, false, none⟩]

/-- A raw rule-creation input that the schema accepts. -/
def c10_data : RecurrenceRuleCreateData :=
  ⟨.weekly, 2, .count, some 10, none⟩

/-- A count-bounded daily rule with `end_count = 3` (spec scenario 4). -/
def c4_rule : RecurrenceRule :=
  ⟨12, 1, .daily, 1, .count, some 3, none⟩

/-! ## Theorems -/

/-- Total order on embedded dates: strict `<` is the complement of `<=` the
other way around (lexicographic comparison of year, month, day). -/
theorem date_lt_iff_not_le (a b : Date) :
    Date.lt a b = true ↔ ¬ Date.le b a = true := by
  rcases a with ⟨y1, m1, d1⟩
  rcases b with ⟨y2, m2, d2⟩
  simp only [Date.lt, Date.le, Bool.or_eq_true, Bool.and_eq_true,
    decide_eq_true_eq]
  omega

/-- C2: for a rule with `end_type=date` and `end_date` present, the
calculator returns the advanced timestamp exactly when both the calendar
date of the anchor and that of the advanced timestamp are `<= end_date`
(so an occurrence landing exactly on `end_date` is valid, and the step
whose advanced date exceeds `end_date` is absent); the result is never
anything other than `none` or that advanced timestamp. -/
theorem calculate_next_occurrence_end_date_boundary (rule : RecurrenceRule)
    (ed : Date) (cd now : DateTime) (completed_count : Nat)
    (het : rule.end_type = RecurrenceEndType.date)
    (hed : rule.end_date = some ed) :
    (calculate_next_occurrence rule (some cd) completed_count now =
        some (add_interval cd rule.frequency rule.interval) ↔
      (Date.le cd.date ed = true ∧
        Date.le (add_interval cd rule.frequency rule.interval).date ed = true)) ∧
    (calculate_next_occurrence rule (some cd) completed_count now = none ∨
      calculate_next_occurrence rule (some cd) completed_count now =
        some (add_interval cd rule.frequency rule.interval)) := by
  have hlt := date_lt_iff_not_le ed
    (add_interval cd rule.frequency rule.interval).date
  simp only [calculate_next_occurrence, should_continue, het, hed,
    Option.getD_some]
  cases hle : Date.le cd.date ed with
  | false => simp
  | true =>
    cases hnext : Date.lt ed (add_interval cd rule.frequency rule.interval).date with
    | false =>
      simp only [hnext] at hlt
      simp_all
    | true =>
      simp only [hnext] at hlt
      simp_all

/-- C4: for a rule with `end_type=count`, the calculator returns a
non-absent (advanced) timestamp for every `completed_count` strictly below
`end_count`, absent for every `completed_count >= end_count`, and always a
non-absent timestamp when `end_count` is not set (unbounded). -/
theorem calculate_next_occurrence_end_count_boundary (rule : RecurrenceRule)
    (cd now : DateTime) (completed_count : Nat)
    (het : rule.end_type = RecurrenceEndType.count) :
    (∀ n, rule.end_count = some n →
      (completed_count < n →
        calculate_next_occurrence rule (some cd) completed_count now =
          some (add_interval cd rule.frequency rule.interval)) ∧
      (n ≤ completed_count →
        calculate_next_occurrence rule (some cd) completed_count now = none)) ∧
    (rule.end_count = none →
      calculate_next_occurrence rule (some cd) completed_count now =
        some (add_interval cd rule.frequency rule.interval)) := by
  constructor
  · intro n hn
    constructor
    · intro hlt
      simp [calculate_next_occurrence, should_continue, het, hn, hlt]
    · intro hge
      simp [calculate_next_occurrence, should_continue, het, hn,
        Nat.not_lt.mpr hge]
  · intro hn
    simp [calculate_next_occurrence, should_continue, het, hn]

/-- C3: monthly advancement moves the month index forward by exactly the
interval (never rolling into a following month), yearly advancement adds the
interval to the year and keeps the month; both preserve the time of day, and
whenever the anchor day-of-month does not exist in the target month the
result day is clamped to the last valid day of that month.  Concretely,
2026-01-31T10:00:00 plus one month is 2026-02-28T10:00:00 and
2024-02-29T10:00:00 plus one year is 2025-02-28T10:00:00. -/
theorem add_interval_clamps_to_month_end :
    (∀ (t : DateTime) (k : Nat), 1 ≤ t.month →
      ((add_interval t RecurrenceFrequency.monthly k).year * 12 +
          ((add_interval t RecurrenceFrequency.monthly k).month - 1) =
        t.year * 12 + (t.month - 1) + k) ∧
      1 ≤ (add_interval t RecurrenceFrequency.monthly k).month ∧
      (add_interval t RecurrenceFrequency.monthly k).month ≤ 12 ∧
      (add_interval t RecurrenceFrequency.monthly k).hour = t.hour ∧
      (add_interval t RecurrenceFrequency.monthly k).minute = t.minute ∧
      (add_interval t RecurrenceFrequency.monthly k).second = t.second ∧
      (daysInMonth (add_interval t RecurrenceFrequency.monthly k).year
          (add_interval t RecurrenceFrequency.monthly k).month < t.day →
        (add_interval t RecurrenceFrequency.monthly k).day =
          daysInMonth (add_interval t RecurrenceFrequency.monthly k).year
            (add_interval t RecurrenceFrequency.monthly k).month)) ∧
    (∀ (t : DateTime) (k : Nat),
      (add_interval t RecurrenceFrequency.yearly k).year = t.year + k ∧
      (add_interval t RecurrenceFrequency.yearly k).month = t.month ∧
      (add_interval t RecurrenceFrequency.yearly k).hour = t.hour ∧
      (add_interval t RecurrenceFrequency.yearly k).minute = t.minute ∧
      (add_interval t RecurrenceFrequency.yearly k).second = t.second ∧
      (daysInMonth (add_interval t RecurrenceFrequency.yearly k).year
          (add_interval t RecurrenceFrequency.yearly k).month < t.day →
        (add_interval t RecurrenceFrequency.yearly k).day =
          daysInMonth (add_interval t RecurrenceFrequency.yearly k).year
            (add_interval t RecurrenceFrequency.yearly k).month)) ∧
    add_interval ⟨2026, 1, 31, 10, 0, 0⟩ RecurrenceFrequency.monthly 1 =
      ⟨2026, 2, 28, 10, 0, 0⟩ ∧
    add_interval ⟨2024, 2, 29, 10, 0, 0⟩ RecurrenceFrequency.yearly 1 =
      ⟨2025, 2, 28, 10, 0, 0⟩ := by
  refine ⟨?_, ?_, by decide, by decide⟩
  · intro t k hm
    simp only [add_interval, DateTime.addMonths]
    refine ⟨by omega, by omega, by omega, trivial, trivial, trivial, ?_⟩
    intro hday
    exact Nat.min_eq_right (Nat.le_of_lt hday)
  · intro t k
    simp only [add_interval, DateTime.addYears]
    refine ⟨trivial, trivial, trivial, trivial, trivial, ?_⟩
    intro hday
    exact Nat.min_eq_right (Nat.le_of_lt hday)

/-- C2 witness: date-bounded daily rule ending 2026-01-29.  From the anchor
2026-01-28T10:00:00 the advanced date equals the end date and is returned;
from the anchor 2026-01-29T10:00:00 the advanced date exceeds it and the
series ends. -/
theorem calculate_next_occurrence_end_date_boundary_witness :
    calculate_next_occurrence c2_rule (some ⟨2026, 1, 28, 10, 0, 0⟩) 0
        ⟨2026, 1, 1, 0, 0, 0⟩ =
      some (add_interval ⟨2026, 1, 28, 10, 0, 0⟩ c2_rule.frequency
        c2_rule.interval) ∧
    calculate_next_occurrence c2_rule (some ⟨2026, 1, 29, 10, 0, 0⟩) 0
        ⟨2026, 1, 1, 0, 0, 0⟩ = none := by
  constructor
  · exact (calculate_next_occurrence_end_date_boundary c2_rule ⟨2026, 1, 29⟩
      ⟨2026, 1, 28, 10, 0, 0⟩ ⟨2026, 1, 1, 0, 0, 0⟩ 0 rfl rfl).1.mpr
      ⟨by decide, by decide⟩
  · rcases (calculate_next_occurrence_end_date_boundary c2_rule ⟨2026, 1, 29⟩
      ⟨2026, 1, 29, 10, 0, 0⟩ ⟨2026, 1, 1, 0, 0, 0⟩ 0 rfl rfl) with ⟨hiff, hcases⟩
    rcases hcases with h | h
    · exact h
    · exact absurd (hiff.mp h).2 (by decide)

/-- C4 witness: count-bounded rule with `end_count = 3`: `completed_count = 2`
yields a next occurrence, `completed_count = 3` ends the series. -/
theorem calculate_next_occurrence_end_count_boundary_witness :
    calculate_next_occurrence c4_rule (some ⟨2026, 1, 28, 10, 0, 0⟩) 2
        ⟨2026, 1, 1, 0, 0, 0⟩ =
      some (add_interval ⟨2026, 1, 28, 10, 0, 0⟩ c4_rule.frequency
        c4_rule.interval) ∧
    calculate_next_occurrence c4_rule (some ⟨2026, 1, 28, 10, 0, 0⟩) 3
        ⟨2026, 1, 1, 0, 0, 0⟩ = none := by
  constructor
  · exact ((calculate_next_occurrence_end_count_boundary c4_rule
      ⟨2026, 1, 28, 10, 0, 0⟩ ⟨2026, 1, 1, 0, 0, 0⟩ 2 rfl).1 3 rfl).1 (by decide)
  · exact ((calculate_next_occurrence_end_count_boundary c4_rule
      ⟨2026, 1, 28, 10, 0, 0⟩ ⟨2026, 1, 1, 0, 0, 0⟩ 3 rfl).1 3 rfl).2 (by decide)

/-- C3 witness: January 2026 has 31 days but February 2026 only 28, so the
clamping branch of the monthly case applies to the 2026-01-31 anchor. -/
theorem add_interval_clamps_to_month_end_witness :
    (add_interval ⟨2026, 1, 31, 10, 0, 0⟩ RecurrenceFrequency.monthly 1).day =
      daysInMonth
        (add_interval ⟨2026, 1, 31, 10, 0, 0⟩ RecurrenceFrequency.monthly 1).year
        (add_interval ⟨2026, 1, 31, 10, 0, 0⟩ RecurrenceFrequency.monthly 1).month :=
  (add_interval_clamps_to_month_end.1 ⟨2026, 1, 31, 10, 0, 0⟩ 1
    (by decide)).2.2.2.2.2.2 (by decide)

/-- C1: `complete_task` commits `is_completed = true` before calling
`create_next_instance`, so `get_completed_count` already counts the
just-completed task once — and `create_next_instance` adds one more on top
("Include current"), counting it twice.  With `end_count = 2` and the
just-completed task as the only instance of the series, the total counting
the just-completed instance exactly once is `1 < 2`, yet the code produces
no next instance: the series ends one completion early. -/
theorem create_next_instance_double_counts :
    get_completed_count [c1_task] 1 c1_task = 1 ∧
    c1_rule.end_type = RecurrenceEndType.count ∧
    c1_rule.end_count = some 2 ∧
    (1 : Nat) < 2 ∧
    (create_next_instance [c1_task] 1 101 c1_now c1_task c1_rule).fst =
      none := by
  decide

/-- C5 counterexample: `mark_as_sent` has no guard on an already sent
reminder, so a second call at a later wall-clock time (25) overwrites the
`sent_at` stamp written by the first call (at 0): the `sent_at` column after
two calls differs from its value after one call. -/
theorem mark_as_sent_restamps_sent_at :
    ¬ ((mark_as_sent (mark_as_sent [c5_reminder] 1 0) 1 25).map
          Reminder.sent_at =
        (mark_as_sent [c5_reminder] 1 0).map Reminder.sent_at) := by
  decide

/-- C5 amended: applying `mark_as_sent` twice leaves `sent` identical to
applying it once, and never unsets it; but the second call overwrites
`sent_at` with its own current time — two successive calls are equivalent to
a single call at the time of the second call, not to the first call alone. -/
theorem mark_as_sent_second_call_wins (reminders : List Reminder)
    (reminder_id : Nat) (t1 t2 : Int) :
    mark_as_sent (mark_as_sent reminders reminder_id t1) reminder_id t2 =
      mark_as_sent reminders reminder_id t2 ∧
    (mark_as_sent (mark_as_sent reminders reminder_id t1) reminder_id
        t2).map Reminder.sent =
      (mark_as_sent reminders reminder_id t1).map Reminder.sent := by
  constructor
  · simp only [mark_as_sent, List.map_map]
    apply List.map_congr_left
    intro r _
    cases h : r.id == reminder_id with
    | false => simp [Function.comp, h]
    | true => simp [Function.comp, h]
  · simp only [mark_as_sent, List.map_map]
    apply List.map_congr_left
    intro r _
    cases h : r.id == reminder_id with
    | false => simp [Function.comp, h]
    | true => simp [Function.comp, h]

/-- C5 amended witness: concrete double application at times 0 and then 25
collapses to a single application at 25. -/
theorem mark_as_sent_second_call_wins_witness :
    mark_as_sent (mark_as_sent [c5_reminder] 1 0) 1 25 =
      mark_as_sent [c5_reminder] 1 25 :=
  (mark_as_sent_second_call_wins [c5_reminder] 1 0 25).1

/-- C6: `ConnectionManager.connect` holds the non-reentrant `asyncio.Lock`
while awaiting `self.disconnect`, which tries to take the same lock — so
connecting a user who already has a registered channel blocks forever
(modelled as `none`), while connecting a fresh user returns a new empty
queue and registers it. -/
theorem connect_deadlocks_on_reconnect :
    connect 7 c6_manager = none ∧
    connect 8 c6_manager = some ([], ⟨[(7, []), (8, [])], false⟩) := by
  decide

/-- C7: a dispatch cycle over a single due, unsent reminder whose owning
user has no registered channel completes without blocking or raising
(`some` result), records that `send_reminder` returned `false`, leaves the
registry unchanged, and still marks the reminder `sent = true` with
`sent_at` set — so the reminder can never be delivered again. -/
theorem dispatch_cycle_marks_offline_reminder_sent
    (db : AppDb) (cm : ConnectionManager) (r : Reminder) (t : Task)
    (now : Int)
    (hrem : db.reminders = [r])
    (hdue : r.remind_at.val ≤ now)
    (hunsent : r.sent = false)
    (htask : db.tasks.find? (fun tk => tk.id == r.task_id) = some t)
    (hoffline : ∀ p ∈ cm.connections, p.fst ≠ t.user_id)
    (hlock : cm.lockHeld = false) :
    check_due_reminders_cycle now db cm =
      some
        ({ db with reminders := [{ r with sent := true, sent_at := some now }] },
          cm, [(r.id, false)]) := by
  have hany : cm.connections.any (fun p => p.fst == t.user_id) = false := by
    rw [List.any_eq_false]
    intro p hp
    simp only [beq_iff_eq]
    exact hoffline p hp
  have hdueList : get_due_reminders_for_all_users db.reminders now = [r] := by
    rw [hrem]
    simp [get_due_reminders_for_all_users, hdue, hunsent]
  have hcm : releaseLock { cm with lockHeld := true } = cm := by
    cases cm
    simp_all [releaseLock]
  have hmark : mark_as_sent db.reminders r.id now =
      [{ r with sent := true, sent_at := some now }] := by
    rw [hrem]
    simp [mark_as_sent]
  unfold check_due_reminders_cycle
  rw [hdueList]
  simp only [List.foldlM_cons, List.foldlM_nil, process_one, htask,
    send_reminder, acquireLock, hlock, if_false, Bool.false_eq_true,
    ite_false, hany, hcm, hmark]
  simp [hany, hcm]

/-- C7 witness: one due, unsent reminder at clock 10 for user 7, who is
offline (empty registry): the cycle returns normally, the send was `false`,
and the reminder ends up `sent = true` with `sent_at = 10`. -/
theorem dispatch_cycle_marks_offline_reminder_sent_witness :
    check_due_reminders_cycle 10 ⟨[c7_task], [c7_reminder]⟩ ⟨[], false⟩ =
      some (⟨[c7_task], [⟨1, 100, ⟨5, true⟩, none, true, some 10⟩]⟩,
        ⟨[], false⟩, [(1, false)]) := by
  have h := dispatch_cycle_marks_offline_reminder_sent
    ⟨[c7_task], [c7_reminder]⟩ ⟨[], false⟩ c7_reminder c7_task 10
    rfl (by decide) rfl (by decide) (by simp) rfl
  simpa using h

/-- C8: `create_reminder` succeeds exactly when the task exists and is owned
by the caller, the (UTC-interpreted) `remind_at` is strictly in the future,
and the task currently has fewer than `MAX_REMINDERS_PER_TASK` reminders; on
success exactly the one new reminder row is appended, and on any failing
check an error with a descriptive reason is returned and the reminder table
is unchanged. -/
theorem create_reminder_validation (tasks : List Task)
    (reminders : List Reminder) (user_id : Nat) (now : Int) (fresh_id : Nat)
    (data : ReminderCreate) :
    ((create_reminder tasks reminders user_id now fresh_id data).fst.isOk =
        true ↔
      ((∃ t ∈ tasks, t.id = data.task_id ∧ t.user_id = user_id) ∧
        now < data.remind_at.asUtc.val ∧
        (list_reminders tasks reminders user_id (some data.task_id)).length <
          MAX_REMINDERS_PER_TASK)) ∧
    ((create_reminder tasks reminders user_id now fresh_id data).fst.isOk =
        true →
      (create_reminder tasks reminders user_id now fresh_id data).snd =
        reminders ++
          [{ id := fresh_id, task_id := data.task_id,
             remind_at := data.remind_at, message := data.message,
             sent := false, sent_at := none }]) ∧
    ((create_reminder tasks reminders user_id now fresh_id data).fst.isOk =
        false →
      (create_reminder tasks reminders user_id now fresh_id data).snd =
          reminders ∧
      ∃ msg, (create_reminder tasks reminders user_id now fresh_id data).fst =
        Except.error msg) := by
  have hex :
      (tasks.find? (fun t => t.id == data.task_id &&
        t.user_id == user_id)).isSome = true ↔
      ∃ t ∈ tasks, t.id = data.task_id ∧ t.user_id = user_id := by
    rw [List.find?_isSome]
    simp
  unfold create_reminder
  cases hfind : tasks.find?
      (fun t => t.id == data.task_id && t.user_id == user_id) with
  | none =>
    rw [hfind] at hex
    simp only [Option.isSome_none, Bool.false_eq_true, false_iff] at hex
    refine ⟨?_, ?_, ?_⟩
    · simp only [Except.isOk, Except.toBool, Bool.false_eq_true, false_iff]
      rintro ⟨hexists, -, -⟩
      exact hex hexists
    · simp [Except.isOk, Except.toBool]
    · exact fun _ => ⟨rfl, "Task not found", rfl⟩
  | some t0 =>
    rw [hfind] at hex
    simp only [Option.isSome_some, true_iff] at hex
    by_cases h1 : data.remind_at.asUtc.val ≤ now
    · simp only [if_pos h1]
      refine ⟨?_, ?_, ?_⟩
      · simp only [Except.isOk, Except.toBool, Bool.false_eq_true, false_iff]
        rintro ⟨-, hfut, -⟩
        omega
      · simp [Except.isOk, Except.toBool]
      · simp [Except.isOk, Except.toBool]
    · by_cases h2 : MAX_REMINDERS_PER_TASK ≤
          (list_reminders tasks reminders user_id (some data.task_id)).length
      · simp only [if_neg h1, if_pos h2]
        refine ⟨?_, ?_, ?_⟩
        · simp only [Except.isOk, Except.toBool, Bool.false_eq_true,
            false_iff]
          rintro ⟨-, -, hlim⟩
          omega
        · simp [Except.isOk, Except.toBool]
        · simp [Except.isOk, Except.toBool]
      · simp only [if_neg h1, if_neg h2]
        refine ⟨?_, ?_, ?_⟩
        · simp only [Except.isOk, Except.toBool, true_iff]
          exact ⟨hex, by omega, by omega⟩
        · intro _
          trivial
        · simp [Except.isOk, Except.toBool]

/-- C8 witness: task 100 owned by user 7, empty reminder table, `remind_at`
20 (naive, interpreted as UTC) strictly after now = 10: creation succeeds. -/
theorem create_reminder_validation_witness :
    (create_reminder [⟨100, 7, "standup", none, false, 1, none, none, none⟩]
      [] 7 10 55 c8_data).fst.isOk = true :=
  (create_reminder_validation
    [⟨100, 7, "standup", none, false, 1, none, none, none⟩] [] 7 10 55
    c8_data).1.mpr
    ⟨⟨⟨100, 7, "standup", none, false, 1, none, none, none⟩, by simp, rfl, rfl⟩,
      by decide, by decide⟩

/-- C9: when the task exists and is owned by the caller,
`cancel_task_reminders` reports the number of unsent reminders of that task
and the remaining table holds a reminder exactly when it was there before
and is not an unsent reminder of that task — so every sent reminder and
every reminder of every other task survives. -/
theorem cancel_task_reminders_deletes_exactly_unsent (tasks : List Task)
    (reminders : List Reminder) (user_id task_id : Nat) (t : Task)
    (ht : t ∈ tasks) (hid : t.id = task_id) (huser : t.user_id = user_id) :
    (cancel_task_reminders tasks reminders user_id task_id).fst =
      Except.ok
        (reminders.filter (fun r => r.task_id == task_id && !r.sent)).length ∧
    ∀ r : Reminder,
      r ∈ (cancel_task_reminders tasks reminders user_id task_id).snd ↔
        (r ∈ reminders ∧ ¬ (r.task_id = task_id ∧ r.sent = false)) := by
  have hfind : (tasks.find? (fun tk => tk.id == task_id &&
      tk.user_id == user_id)).isSome = true := by
    rw [List.find?_isSome]
    exact ⟨t, ht, by simp [hid, huser]⟩
  obtain ⟨t0, ht0⟩ := Option.isSome_iff_exists.mp hfind
  unfold cancel_task_reminders
  rw [ht0]
  refine ⟨rfl, ?_⟩
  intro r
  rw [List.mem_filter]
  constructor
  · rintro ⟨hmem, hcond⟩
    refine ⟨hmem, ?_⟩
    rintro ⟨hrt, hrs⟩
    rw [hrt, hrs] at hcond
    simp at hcond
  · rintro ⟨hmem, hcond⟩
    refine ⟨hmem, ?_⟩
    cases hbt : (r.task_id == task_id) with
    | false => simp [hbt]
    | true =>
      have hrt : r.task_id = task_id := by simpa using hbt
      cases hbs : r.sent with
      | false => exact absurd ⟨hrt, hbs⟩ hcond
      | true => simp [hbt, hbs]

/-- C9 witness: task 100 owned by user 7; of the three reminders, only the
unsent reminder of task 100 is deleted (count 1), the sent reminder of task
100 survives. -/
theorem cancel_task_reminders_deletes_exactly_unsent_witness :
    (cancel_task_reminders
        [⟨100, 7, "standup", none, false, 1, none, none, none⟩]
        c9_reminders 7 100).fst = Except.ok 1 ∧
    (⟨2, 100, ⟨6, true⟩, none, true, some 6⟩ : Reminder) ∈
      (cancel_task_reminders
        [⟨100, 7, "standup", none, false, 1, none, none, none⟩]
        c9_reminders 7 100).snd := by
  have h := cancel_task_reminders_deletes_exactly_unsent
    [⟨100, 7, "standup", none, false, 1, none, none, none⟩]
    c9_reminders 7 100 ⟨100, 7, "standup", none, false, 1, none, none, none⟩
    (by simp) rfl rfl
  refine ⟨?_, ?_⟩
  · rw [h.1]
    rfl
  · exact (h.2 ⟨2, 100, ⟨6, true⟩, none, true, some 6⟩).mpr
      ⟨by decide, by decide⟩

/-- C10: the creation schema accepts a raw rule input exactly when
`1 <= interval <= 365` and, when `end_count` is present,
`1 <= end_count <= 999`; every rule row it produces satisfies those same
bounds. -/
theorem rule_create_schema_bounds (d : RecurrenceRuleCreateData)
    (user_id fresh_id : Nat) :
    ((create_rule user_id fresh_id d).isSome = true ↔
      (1 ≤ d.interval ∧ d.interval ≤ 365 ∧
        ∀ n, d.end_count = some n → 1 ≤ n ∧ n ≤ 999)) ∧
    ∀ r, create_rule user_id fresh_id d = some r →
      1 ≤ r.interval ∧ r.interval ≤ 365 ∧
      ∀ n, r.end_count = some n → 1 ≤ n ∧ n ≤ 999 := by
  have hval : rule_create_valid d = true ↔
      (1 ≤ d.interval ∧ d.interval ≤ 365 ∧
        ∀ n, d.end_count = some n → 1 ≤ n ∧ n ≤ 999) := by
    unfold rule_create_valid
    cases hec : d.end_count with
    | none => simp
    | some n =>
      simp only [Bool.and_eq_true, decide_eq_true_eq]
      constructor
      · rintro ⟨⟨h1, h2⟩, h3, h4⟩
        refine ⟨h1, h2, fun m hm => ?_⟩
        injection hm with hmn
        subst hmn
        exact ⟨h3, h4⟩
      · rintro ⟨h1, h2, h3⟩
        obtain ⟨h4, h5⟩ := h3 n rfl
        exact ⟨⟨h1, h2⟩, h4, h5⟩
  constructor
  · unfold create_rule
    by_cases h : rule_create_valid d = true
    · simp only [h, if_true, Option.isSome_some, true_iff]
      exact hval.mp h
    · simp only [h, if_false, Bool.false_eq_true, Option.isSome_none,
        false_iff]
      intro hb
      exact h (hval.mpr hb)
  · intro r hr
    unfold create_rule at hr
    by_cases h : rule_create_valid d = true
    · rw [if_pos h] at hr
      obtain ⟨h1, h2, h3⟩ := hval.mp h
      cases hr
      refine ⟨?_, ?_, ?_⟩
      · show 1 ≤ d.interval.toNat
        omega
      · show d.interval.toNat ≤ 365
        omega
      · intro n hn
        have hn2 : d.end_count.map Int.toNat = some n := hn
        cases hec : d.end_count with
        | none =>
          rw [hec] at hn2
          simp at hn2
        | some m =>
          obtain ⟨h4, h5⟩ := h3 m hec
          rw [hec] at hn2
          have hmn : m.toNat = n := by simpa using hn2
          omega
    · rw [if_neg h] at hr
      cases hr

/-- C10 witness: a weekly every-2 rule with `end_count = 10` is accepted by
the schema. -/
theorem rule_create_schema_bounds_witness :
    (create_rule 1 5 c10_data).isSome = true :=
  (rule_create_schema_bounds c10_data 1 5).1.mpr
    ⟨by decide, by decide, fun n hn => by
      have hn10 : n = 10 := by simpa [c10_data] using hn.symm
      subst hn10
      decide⟩

end Backend
